import Mathlib

/-!
Verification of the feature-registry / on-demand-transformation core
(`feast`): shallow embedding of

* `sdk/python/feast/infra/registry/memory.py` (MemoryRegistry),
* `sdk/python/feast/on_demand_feature_view.py` (OnDemandFeatureView),
* `sdk/python/feast/infra/registry/contrib/mysql/mysql_registry_store.py`.

Python strings are modelled as `List Char`, Python `dict`s as ordered
association lists with insert-or-update semantics (matching the
insertion-order behaviour of CPython dicts), `datetime.utcnow()` stamps as
explicit `now : Nat` parameters, and raised exceptions as `Except` errors.
Operations that, like CPython, mutate state before raising return their
state next to an `Except` result so the partial mutation is observable.
-/

namespace Feast

/-- Python strings, modelled as their character sequences. -/
abbrev Str := List Char

/-- `str.split(sep)` for a single-character separator, mirroring CPython:
`"".split(":") = [""]`, `"a:b".split(":") = ["a", "b"]`, `":".split(":") = ["", ""]`. -/
def pySplit (sep : Char) : List Char → List (List Char)
  | [] => [[]]
  | c :: rest =>
    match pySplit sep rest with
    | [] => [[]]
    | cur :: out => if c = sep then [] :: cur :: out else (c :: cur) :: out

/-- Lookup in a Python dict (`d[k]` / `k in d`), `none` when the key is absent. -/
def dictLookup {α : Type} (k : Str) : List (Str × α) → Option α
  | [] => none
  | (k₂, v) :: rest => if k₂ = k then some v else dictLookup k rest

/-- `d[k] = v` on a Python dict: update the existing slot in place, else append. -/
def dictInsert {α : Type} (k : Str) (v : α) : List (Str × α) → List (Str × α)
  | [] => [(k, v)]
  | (k₂, v₂) :: rest =>
    if k₂ = k then (k₂, v) :: rest else (k₂, v₂) :: dictInsert k v rest

/-- Errors raised by the registry. In the source all but `notFound` are the
single `RegistryError` class (dedicated message strings); `notFound` stands for
`FeatureViewNotFoundException` where the source raises that instead. The
`invalidRef` constructor is a modelling artifact flagging a dangling object
reference, which no source-reachable trace produces. -/
inductive RegErr
  | duplicate
  | notFound
  | malformedKey
  | invalidRef
deriving DecidableEq, Repr

/-- `project_key` (memory.py lines 31-32): `f"{project}:{key}"`. -/
def project_key (project : Str) (key : Str) : Str := project ++ ':' :: key

/-- `invert_projected_key` (memory.py lines 34-38): split on `":"`; raise
`RegistryError` unless exactly two segments result. -/
def invert_projected_key (projected_key : Str) : Except RegErr (Str × Str) :=
  match pySplit ':' projected_key with
  | [a, b] => .ok (a, b)
  | _ => .error .malformedKey

/-- `list_registry_dict` (memory.py lines 41-44): the comprehension calls
`invert_projected_key` on every stored key (raising on the first malformed
one) and keeps the values whose project component matches. `copy.copy` of a
kept object is a value in this embedding, so it appears here as the value
itself. -/
def list_registry_dict {α : Type} (project : Str) : List (Str × α) → Except RegErr (List α)
  | [] => .ok []
  | (k, v) :: rest => do
    let kp ← invert_projected_key k
    let tail ← list_registry_dict project rest
    if kp.1 = project then .ok (v :: tail) else .ok tail

/-! ## Transformation engine (`on_demand_feature_view.py`) -/

/-- A cell value inside a batch: `some n` an integer, `none` Python `None`
(the engine's per-row buffers are initialised with `None`, line 399). -/
abbrev Val := Option Int

/-- One row presented to a `mode="python"` transformation: a dict from field
name to value. -/
abbrev Row := List (Str × Val)

/-- A columnar batch (`pandas.DataFrame` restricted to what the engine
observes: ordered named columns over a shared row index). -/
abbrev DFrame := List (Str × List Val)

/-- A declared output feature (`feast.field.Field`, only the name is consulted
by the naming logic under verification). -/
structure FieldSpec where
  name : Str
deriving DecidableEq, Repr

/-- A `FeatureViewProjection` as consulted by the engine: the source name used
for qualification and the projected features. -/
structure ProjSpec where
  name : Str
  features : List FieldSpec
deriving DecidableEq, Repr

/-- The fully-qualified feature reference `f"{source}__{feature}"`
(lines 322, 334, 378, 396). -/
def fullRef (source : Str) (feature : Str) : Str := source ++ '_' :: '_' :: feature

/-- One step of the reconciliation loop of `_get_transformed_features_df`
(lines 332-342) for a single projected feature: duplicate the column under the
missing one of its two names and record the added name in
`columns_to_cleanup`. -/
def reconcile_feature (sourceName : Str) (f : FieldSpec) :
    DFrame × List Str → DFrame × List Str :=
  fun st =>
    let d := st.1
    let cleanup := st.2
    let full := fullRef sourceName f.name
    match dictLookup full d with
    | some col => (dictInsert f.name col d, cleanup ++ [f.name])
    | none =>
      match dictLookup f.name d with
      | some col => (dictInsert full col d, cleanup ++ [full])
      | none => (d, cleanup)

/-- The two nested reconciliation loops of `_get_transformed_features_df`
(lines 330-342), over every source projection and each of its features. -/
def reconcile_all (projections : List ProjSpec) (d : DFrame) : DFrame × List Str :=
  projections.foldl (fun st p => p.features.foldl (fun st₂ f => reconcile_feature p.name f st₂) st) (d, [])

/-- The `rename_columns` dict built on lines 348-359: for each declared output
feature, `short ↦ long` when the short name is an output column and full names
were requested, `long ↦ short` whenever full names were not requested. -/
def build_rename_columns (features : List FieldSpec) (projectedName : Str)
    (cols : List Str) (full_feature_names : Bool) : List (Str × Str) :=
  features.foldl
    (fun rn f =>
      let short := f.name
      let long := fullRef projectedName f.name
      if short ∈ cols ∧ full_feature_names then dictInsert short long rn
      else if full_feature_names = false then dictInsert long short rn
      else rn)
    []

/-- `DataFrame.drop(columns=...)`: a NEW frame without the named columns.
At line 362 the source discards this return value. -/
def df_drop (d : DFrame) (cols : List Str) : DFrame :=
  d.filter (fun kv => kv.1 ∉ cols)

/-- `OnDemandFeatureView._get_transformed_features_df` (lines 324-367).
`projectedName` stands for `self.projection.name_to_use()` (line 322) and the
`udf : DFrame → DFrame` parameter for `self.udf`; the remaining `self.*`
reads appear as parameters. Line 362 computes a dropped frame whose result is
not assigned, so it has no effect on the returned frame; it is kept as an
unused binding to mirror the source. -/
def _get_transformed_features_df (projections : List ProjSpec) (features : List FieldSpec)
    (projectedName : Str) (udf : DFrame → DFrame) (df_with_features : DFrame)
    (full_feature_names : Bool) : DFrame :=
  let rec_st := reconcile_all projections df_with_features
  let df₂ := rec_st.1
  let columns_to_cleanup := rec_st.2
  let df_with_transformed_features := udf df₂
  let rename_columns :=
    build_rename_columns features projectedName (df_with_transformed_features.map Prod.fst)
      full_feature_names
  let _ := df_drop df₂ (columns_to_cleanup.filter (fun c => (dictLookup c df₂).isSome))
  df_with_transformed_features.map (fun kv => ((dictLookup kv.1 rename_columns).getD kv.1, kv.2))

/-- The Python `KeyError` raised by dict subscription on a missing key. -/
inductive PyErr
  | keyError
deriving DecidableEq, Repr

/-- Decidable equality of `Except` results, so concrete runs of the fallible
operations can be checked by `decide`. -/
instance {ε α : Type} [DecidableEq ε] [DecidableEq α] : DecidableEq (Except ε α) :=
  fun a b =>
    match a, b with
    | .ok x, .ok y =>
      if h : x = y then isTrue (by rw [h]) else isFalse (by intro hh; cases hh; exact h rfl)
    | .error x, .error y =>
      if h : x = y then isTrue (by rw [h]) else isFalse (by intro hh; cases hh; exact h rfl)
    | .ok _, .error _ => isFalse (by intro hh; cases hh)
    | .error _, .ok _ => isFalse (by intro hh; cases hh)

/-- One step of the `name_map` construction in `_get_transformed_features_dict`
(lines 375-382). When only the short name is present the source executes
`name_map[feature.name] = name_map[full_feature_ref]`, reading the
`full_feature_ref` slot of `name_map` itself, which raises `KeyError`
whenever no earlier iteration has written that slot. -/
def build_name_map_feature (sourceName : Str) (f : FieldSpec) (keys : List Str)
    (nm : List (Str × Str)) : Except PyErr (List (Str × Str)) :=
  let full := fullRef sourceName f.name
  if full ∈ keys then .ok (dictInsert full f.name nm)
  else if f.name ∈ keys then
    match dictLookup full nm with
    | some v => .ok (dictInsert f.name v nm)
    | none => .error .keyError
  else .ok nm

/-- The two nested `name_map` loops (lines 375-382). -/
def build_name_map (projections : List ProjSpec) (keys : List Str) :
    Except PyErr (List (Str × Str)) :=
  projections.foldlM
    (fun nm p => p.features.foldlM (fun nm₂ f => build_name_map_feature p.name f keys nm₂) nm)
    []

/-- Number of logical rows produced by `zip(*feature_dict.values())`: the
minimum column length, `0` for an empty dict. -/
def num_rows (d : List (Str × List Val)) : Nat :=
  match d with
  | [] => 0
  | (_, v) :: rest => (rest.map (fun kv => kv.2.length)).foldl min v.length

/-- Row `i` as built on lines 384-390: the merge
`{**{k: v ...}, **{name_map[k]: v ...}}`. The second comprehension subscripts
`name_map` with every input key, raising `KeyError` for any key the
`name_map` loops never mapped. -/
def build_row (nm : List (Str × Str)) (d : List (Str × List Val)) (i : Nat) :
    Except PyErr Row := do
  let vals := d.map (fun kv => (kv.1, (kv.2[i]?).getD none))
  let first := vals.foldl (fun r kv => dictInsert kv.1 kv.2 r) []
  vals.foldlM
    (fun r kv =>
      match dictLookup kv.1 nm with
      | some k₂ => .ok (dictInsert k₂ kv.2 r)
      | none => .error PyErr.keyError)
    first

/-- The `output_dict` / `correct_feature_name_to_alias` initialisation
(lines 392-399): per declared feature, the caller-requested name maps to a
`None`-filled buffer and the alias map records the opposite naming. -/
def init_output (features : List FieldSpec) (projectedName : Str)
    (full_feature_names : Bool) (n : Nat) :
    List (Str × List Val) × List (Str × Str) :=
  features.foldl
    (fun st f =>
      let long := fullRef projectedName f.name
      let correct := if full_feature_names then long else f.name
      let aliasName := if full_feature_names then f.name else long
      (dictInsert correct (List.replicate n none) st.1, dictInsert correct aliasName st.2))
    ([], [])

/-- The population loop body for one row (lines 402-407). Python evaluates the
default argument of `row_output.get(feature, row_output[alias])` eagerly, so
the `alias` subscription runs first and raises `KeyError` when the alias name
is absent from the transformation's output, even if `feature` itself is
present. -/
def populate_row (udf : Row → Row) (aliasMap : List (Str × Str)) (i : Nat)
    (od : List (Str × List Val)) (row : Row) : Except PyErr (List (Str × List Val)) := do
  let row_output := udf row
  od.foldlM
    (fun od₂ kv => do
      let aliasName := (dictLookup kv.1 aliasMap).getD []
      let aliasVal ←
        match dictLookup aliasName row_output with
        | some v => Except.ok v
        | none => Except.error PyErr.keyError
      let v := (dictLookup kv.1 row_output).getD aliasVal
      Except.ok (dictInsert kv.1 (((dictLookup kv.1 od₂).getD []).set i v) od₂))
    od

/-- `OnDemandFeatureView._get_transformed_features_dict` (lines 369-408), the
`mode="python"` row-wise execution path; parameters stand for the `self.*`
reads as in `_get_transformed_features_df`. -/
def _get_transformed_features_dict (projections : List ProjSpec) (features : List FieldSpec)
    (projectedName : Str) (udf : Row → Row) (feature_dict : List (Str × List Val))
    (full_feature_names : Bool) : Except PyErr (List (Str × List Val)) := do
  let nm ← build_name_map projections (feature_dict.map Prod.fst)
  let rows ← (List.range (num_rows feature_dict)).mapM (build_row nm feature_dict)
  let st := init_output features projectedName full_feature_names rows.length
  rows.enum.foldlM (fun od ir => populate_row udf st.2 ir.1 od ir.2) st.1

/-! ## MemoryRegistry (`infra/registry/memory.py`)

Catalog objects are modelled with exactly the attributes the registry code
reads or writes. The classes themselves (`Entity`, `FeatureView`, ...) are not
under src/, so the attribute names come from their uses in `memory.py`
(`entity.name`, `entity.created_timestamp`, `entity.last_updated_timestamp`,
`feature_view.name`, `fv.materialization_intervals`,
`fv.last_updated_timestamp`).

`apply_entity` mutates the entity object passed to it before checking for a
duplicate key, and the catalog stores objects by reference, so entity objects
live in an explicit heap (`entityHeap`, addressed by index) and the entity
sub-namespace maps keys to addresses. No other operation of `memory.py`
mutates its argument, so every other sub-namespace stores values directly. -/

/-- An `Entity` as observed by `memory.py`. -/
structure EntityObj where
  name : Str
  created : Option Nat
  lastUpdated : Option Nat
deriving DecidableEq, Repr, Inhabited

/-- The four feature-view variants distinguished by the `isinstance` chain of
`MemoryRegistry._fv_registry` (lines 75-84). `StreamFeatureView` subclasses
`FeatureView` in the source, which is why the chain tests it first; the tag
makes that dispatch a total match. -/
inductive FVKind
  | stream
  | batch
  | onDemand
  | request
deriving DecidableEq, Repr

/-- A feature view as observed by `memory.py`. -/
structure FVObj where
  name : Str
  kind : FVKind
  created : Option Nat
  lastUpdated : Option Nat
  intervals : List (Nat × Nat)
deriving DecidableEq, Repr

/-- A `DataSource` as observed by `memory.py` (only `.name` is read; the
timestamp slots record that `apply_data_source` never touches them). -/
structure DSObj where
  name : Str
  created : Option Nat
  lastUpdated : Option Nat
deriving DecidableEq, Repr

/-- A `FeatureService` as observed by `memory.py`. -/
structure FSObj where
  name : Str
  lastUpdated : Option Nat
deriving DecidableEq, Repr

/-- A `SavedDataset` as observed by `memory.py`. -/
structure SDObj where
  name : Str
deriving DecidableEq, Repr

/-- The state set up by `MemoryRegistry.__init__` (lines 48-71): one dict per
object-kind sub-namespace, plus the entity heap described above. -/
structure RegistryState where
  entityHeap : List EntityObj
  entities : List (Str × Nat)
  dataSources : List (Str × DSObj)
  featureServices : List (Str × FSObj)
  streamFeatureViews : List (Str × FVObj)
  featureViews : List (Str × FVObj)
  onDemandFeatureViews : List (Str × FVObj)
  requestFeatureViews : List (Str × FVObj)
  savedDatasets : List (Str × SDObj)
deriving DecidableEq, Repr

/-- The registry with every sub-namespace empty. -/
def emptyState : RegistryState := ⟨[], [], [], [], [], [], [], [], []⟩

/-- `MemoryRegistry.apply_entity` (lines 92-110): stamp the argument object
(`created_timestamp` only when unset, `last_updated_timestamp` always), then
fail on a duplicate key, else insert. The stamping happens before the
duplicate check, so a failing apply still leaves the argument mutated; the
`entity.is_valid()` call (line 101) is not under src/ and is modelled as a
no-op. -/
def apply_entity (addr : Nat) (project : Str) (now : Nat) (s : RegistryState) :
    RegistryState × Except RegErr Unit :=
  match s.entityHeap[addr]? with
  | none => (s, .error .invalidRef)
  | some e =>
    let e₂ : EntityObj :=
      { e with
        created := if e.created = none then some now else e.created
        lastUpdated := some now }
    let s₂ := { s with entityHeap := s.entityHeap.set addr e₂ }
    let key := project_key project e.name
    if (dictLookup key s₂.entities).isSome then (s₂, .error .duplicate)
    else ({ s₂ with entities := dictInsert key addr s₂.entities }, .ok ())

/-- `MemoryRegistry.get_entity` (lines 126-142); the returned `copy.copy` is a
value in this embedding. -/
def get_entity (name project : Str) (s : RegistryState) : Except RegErr EntityObj :=
  match dictLookup (project_key project name) s.entities with
  | none => .error .notFound
  | some addr =>
    match s.entityHeap[addr]? with
    | none => .error .invalidRef
    | some e => .ok e

/-- The comprehension of `list_registry_dict` specialised to the entity
sub-namespace, resolving stored addresses through the heap (the mapped
values of `self.entities` are the objects themselves in the source). -/
def list_entities_go (heap : List EntityObj) (project : Str) :
    List (Str × Nat) → Except RegErr (List EntityObj)
  | [] => .ok []
  | (k, addr) :: rest => do
    let kp ← invert_projected_key k
    let tail ← list_entities_go heap project rest
    if kp.1 = project then .ok (((heap[addr]?).getD default) :: tail) else .ok tail

/-- `MemoryRegistry.list_entities` (lines 144-155). -/
def list_entities (project : Str) (s : RegistryState) : Except RegErr (List EntityObj) :=
  list_entities_go s.entityHeap project s.entities

/-- `MemoryRegistry.apply_data_source` (lines 158-172): duplicate check and
insert; no timestamp is read or written. -/
def apply_data_source (ds : DSObj) (project : Str) (s : RegistryState) :
    RegistryState × Except RegErr Unit :=
  let key := project_key project ds.name
  if (dictLookup key s.dataSources).isSome then (s, .error .duplicate)
  else ({ s with dataSources := dictInsert key ds s.dataSources }, .ok ())

/-- `MemoryRegistry.list_data_sources` (lines 207-220). -/
def list_data_sources (project : Str) (s : RegistryState) : Except RegErr (List DSObj) :=
  list_registry_dict project s.dataSources

/-- `MemoryRegistry.apply_feature_service` (lines 223-236): duplicate check
and insert; no timestamp is read or written. -/
def apply_feature_service (fs : FSObj) (project : Str) (s : RegistryState) :
    RegistryState × Except RegErr Unit :=
  let key := project_key project fs.name
  if (dictLookup key s.featureServices).isSome then (s, .error .duplicate)
  else ({ s with featureServices := dictInsert key fs s.featureServices }, .ok ())

/-- `MemoryRegistry.apply_saved_dataset` (lines 477-494): duplicate check and
insert; no timestamp is read or written. -/
def apply_saved_dataset (sd : SDObj) (project : Str) (s : RegistryState) :
    RegistryState × Except RegErr Unit :=
  let key := project_key project sd.name
  if (dictLookup key s.savedDatasets).isSome then (s, .error .duplicate)
  else ({ s with savedDatasets := dictInsert key sd s.savedDatasets }, .ok ())

/-- `MemoryRegistry._fv_registry` (lines 75-84): the sub-namespace a feature
view belongs to. -/
def fv_dict (s : RegistryState) : FVKind → List (Str × FVObj)
  | .stream => s.streamFeatureViews
  | .batch => s.featureViews
  | .onDemand => s.onDemandFeatureViews
  | .request => s.requestFeatureViews

/-- Write back the sub-namespace selected by `fv_dict`. -/
def set_fv_dict (s : RegistryState) (k : FVKind) (d : List (Str × FVObj)) : RegistryState :=
  match k with
  | .stream => { s with streamFeatureViews := d }
  | .batch => { s with featureViews := d }
  | .onDemand => { s with onDemandFeatureViews := d }
  | .request => { s with requestFeatureViews := d }

/-- `MemoryRegistry.apply_feature_view` (lines 287-302): dispatch to the
kind's sub-namespace, duplicate check, insert; no timestamp is read or
written. -/
def apply_feature_view (fv : FVObj) (project : Str) (s : RegistryState) :
    RegistryState × Except RegErr Unit :=
  let key := project_key project fv.name
  if (dictLookup key (fv_dict s fv.kind)).isSome then (s, .error .duplicate)
  else (set_fv_dict s fv.kind (dictInsert key fv (fv_dict s fv.kind)), .ok ())

/-- `MemoryRegistry.apply_materialization` (lines 460-475): look the name up
in `self.feature_views` then `self.stream_feature_views` (only `.name` of the
passed view is read, line 468); on the first hit append `(start, end)` to the
view's materialization log and stamp `last_updated_timestamp`; raise
`FeatureViewNotFoundException` when both namespaces miss. -/
def apply_materialization (name project : Str) (startDate endDate now : Nat)
    (s : RegistryState) : RegistryState × Except RegErr Unit :=
  let key := project_key project name
  match dictLookup key s.featureViews with
  | some fv =>
    ({ s with
        featureViews :=
          dictInsert key
            { fv with intervals := fv.intervals ++ [(startDate, endDate)], lastUpdated := some now }
            s.featureViews },
      .ok ())
  | none =>
    match dictLookup key s.streamFeatureViews with
    | some fv =>
      ({ s with
          streamFeatureViews :=
            dictInsert key
              { fv with intervals := fv.intervals ++ [(startDate, endDate)], lastUpdated := some now }
              s.streamFeatureViews },
        .ok ())
    | none => (s, .error .notFound)

/-! ## OnDemandFeatureView definition equality (`on_demand_feature_view.py` lines 161-179) -/

/-- A `RequestSource` as consulted by `__eq__` (the class is compared as a
whole; its observable content is its name and declared schema). -/
structure ReqSrcSpec where
  name : Str
  schema : List FieldSpec
deriving DecidableEq, Repr

/-- The fields of an `OnDemandFeatureView` definition consulted by `__eq__`:
the base-view fields, the two source dicts, the source text of the udf, and
the compiled bytecode `udf.__code__.co_code` (modelled as its byte list). -/
structure ODFVDef where
  name : Str
  features : List FieldSpec
  source_feature_view_projections : List (Str × ProjSpec)
  source_request_sources : List (Str × ReqSrcSpec)
  udf_string : Str
  udf_co_code : List Nat
deriving DecidableEq, Repr

/-- Modelled from the spec: `BaseFeatureView.__eq__`, invoked by
`OnDemandFeatureView.__eq__` at line 167, is not under src/. Per the spec's
definition-equality clause the base comparison covers the identity of the
definition and its declared outputs, so it is modelled as equality of the
name and the declared output features. -/
def base_feature_view_eq (a b : ODFVDef) : Bool :=
  decide (a.name = b.name ∧ a.features = b.features)

/-- `OnDemandFeatureView.__eq__` (lines 161-179): false when the base
comparison fails; false when the projection dicts, request-source dicts, udf
source text, or compiled bytecode differ; true otherwise. (The `TypeError`
raised for a non-`OnDemandFeatureView` argument is outside this typed
embedding.) -/
def odfv_eq (a b : ODFVDef) : Bool :=
  if base_feature_view_eq a b = false then false
  else if
      a.source_feature_view_projections ≠ b.source_feature_view_projections
      ∨ a.source_request_sources ≠ b.source_request_sources
      ∨ a.udf_string ≠ b.udf_string
      ∨ a.udf_co_code ≠ b.udf_co_code then false
  else true

/-! ## MySQL registry store (`contrib/mysql/mysql_registry_store.py`) -/

/-- Exceptions observable in `get_registry_proto`: `TypeError` (call with a
wrong number of arguments), `AttributeError` (read of an attribute never
assigned), and `pymysql.err.DatabaseError` (the only class the `except` at
line 73 catches). -/
inductive PyExn
  | typeError
  | attributeError
  | databaseError
deriving DecidableEq, Repr

/-- A stored registry snapshot blob (`RegistryProto.FromString` input),
abstracted to its serialised bytes. -/
abbrev RegistryProtoBlob := List Nat

/-- A fresh `RegistryProto()` (line 60): the empty catalog. -/
def emptyRegistryProto : RegistryProtoBlob := []

/-- The backing table: rows of `(version, registry)` as selected by the query
on lines 63-69. -/
structure MySQLTableState where
  rows : List (Nat × RegistryProtoBlob)
deriving DecidableEq, Repr

/-- The body of `MySQLRegistryStore._get_conn` (lines 47-57): it begins with
`if not self._conn`, but `__init__` (lines 34-45) never assigns `_conn`, so
the attribute read raises `AttributeError` (reachable only through a call
with the correct arity). -/
def get_conn_body : Except PyExn Unit := .error .attributeError

/-- Calling `_get_conn`: the method is declared with `self` as its only
parameter, so the interpreter rejects any call passing extra positional
arguments with `TypeError` before the body runs. -/
def call_get_conn (extraPositionalArgs : Nat) : Except PyExn Unit :=
  if extraPositionalArgs ≠ 0 then .error .typeError else get_conn_body

/-- The maximum stored version (the `SELECT max(version)` subquery). -/
def max_version (t : MySQLTableState) : Nat :=
  (t.rows.map Prod.fst).foldr max 0

/-- `cur.fetchone()` after the query of lines 63-69: the first row whose
version equals the maximum, `none` when the table is empty. -/
def max_version_row (t : MySQLTableState) : Option RegistryProtoBlob :=
  ((t.rows.filter (fun r => r.1 = max_version t)).head?).map Prod.snd

/-- `MySQLRegistryStore.get_registry_proto` (lines 59-75). The `try` body
first evaluates `self._get_conn(self.db_config)` (line 62), passing one
positional argument beyond `self`; then, had a connection been produced, it
would fetch the max-version row and parse it, falling back to the fresh empty
proto when no row exists. The `except` clause catches `DatabaseError` only
and returns the empty proto; every other exception propagates. -/
def get_registry_proto (t : MySQLTableState) : Except PyExn RegistryProtoBlob :=
  let attempt : Except PyExn RegistryProtoBlob := do
    let _ ← call_get_conn 1
    match max_version_row t with
    | some blob => pure blob
    | none => pure emptyRegistryProto
  match attempt with
  | .error .databaseError => .ok emptyRegistryProto
  | r => r

/-! ## Copy-on-read (`memory.py` `get_*` / `list_*` with `copy.copy`)

The bodies of the copied classes (`Entity`, `FeatureView`, ...) are not under
src/, so how `copy.copy` treats their fields cannot be read off the sources.
This model follows the spec, which mandates that every read return an
independent copy. Feature views carry a mutable nested list (the
materialization log), so the model gives objects an explicit reference into
an interval heap and lets a caller mutate through the handle it got back,
making independence a provable statement rather than a typing accident. -/

/-- The upstream projection `src` exposing the single feature `conv_rate`. -/
def projSrc : ProjSpec := ⟨"src".toList, [⟨"conv_rate".toList⟩]⟩

/-- The declared output feature `out`. -/
def featOut : FieldSpec := ⟨"out".toList⟩

/-- The projection name of the on-demand view (`self.projection.name_to_use()`). -/
def viewV : Str := "v".toList

/-- The row-mode transformation: `{"out": row["conv_rate"] + 1}`. -/
def plusOneRowUdf (r : Row) : Row :=
  [("out".toList,
    match dictLookup ("conv_rate".toList) r with
    | some (some n) => some (n + 1)
    | _ => none)]

/-- The same transformation logic in tabular mode: a frame with the single
column `out = conv_rate + 1`. -/
def plusOneDfUdf (d : DFrame) : DFrame :=
  [("out".toList,
    ((dictLookup ("conv_rate".toList) d).getD []).map (fun v => v.map (fun n => n + 1)))]

/-- A pass-through tabular transformation: the common authoring style
`df["out"] = df["conv_rate"] + 1; return df`, which returns its input columns
plus the new output column. -/
def passThroughDfUdf (d : DFrame) : DFrame :=
  dictInsert ("out".toList)
    (((dictLookup ("conv_rate".toList) d).getD []).map (fun v => v.map (fun n => n + 1)))
    d

/-- One logical row of upstream input, keyed by the fully-qualified feature
name, as the feature server supplies it. -/
def engineInput : List (Str × List Val) := [("src__conv_rate".toList, [some 1])]

/-- A feature view whose timestamps were never set, as a fresh definition
given to `apply`. -/
def fvNoStamp : FVObj := ⟨"fv".toList, .batch, none, none, []⟩

/-- A fresh entity object (no timestamps yet). -/
def entE : EntityObj := ⟨"e".toList, none, none⟩

/-- A registry whose heap holds one entity object, not yet applied. -/
def sAlias : RegistryState := { emptyState with entityHeap := [entE] }

/-- A registry whose heap holds an entity named `b:c` (a name containing the
key separator), not yet applied. -/
def sColon : RegistryState :=
  { emptyState with entityHeap := [⟨"b:c".toList, none, none⟩] }

/-- `sColon` after applying that entity into project `a`. -/
def sColonApplied : RegistryState := (apply_entity 0 ("a".toList) 1 sColon).1

/-- A stored batch view with one recorded interval. -/
def fvBatchF : FVObj := ⟨"f".toList, .batch, none, some 1, [(0, 1)]⟩

/-- A stored stream view with an empty materialization log. -/
def fvStreamG : FVObj := ⟨"g".toList, .stream, none, none, []⟩

/-- A registry holding `f` in the batch sub-namespace and `g` in the stream
sub-namespace of project `p`. -/
def sMat : RegistryState :=
  { emptyState with
    featureViews := [("p:f".toList, fvBatchF)]
    streamFeatureViews := [("p:g".toList, fvStreamG)] }

/-- A registry with one applied object of each relevant kind plus an
unapplied spare entity at heap address 1, used to exercise duplicate applies. -/
def sDup : RegistryState :=
  { emptyState with
    entityHeap := [⟨"e".toList, some 1, some 1⟩, ⟨"e".toList, none, none⟩]
    entities := [("p:e".toList, 0)]
    dataSources := [("p:d".toList, ⟨"d".toList, none, none⟩)]
    featureServices := [("p:s".toList, ⟨"s".toList, none⟩)]
    featureViews := [("p:f".toList, fvBatchF)]
    savedDatasets := [("p:sd".toList, ⟨"sd".toList⟩)] }

/-- An on-demand definition with one declared output and a two-space-indented
udf source text. -/
def odfvA : ODFVDef :=
  ⟨"f".toList, [⟨"out".toList⟩], [("src".toList, projSrc)], [],
    "def f(x):\n  return x".toList, [1, 2, 3]⟩

/-- The same definition after reformatting the udf source (four-space
indentation); the compiled bytecode is unchanged. -/
def odfvB : ODFVDef := { odfvA with udf_string := "def f(x):\n    return x".toList }

theorem pySplit_ne_nil (sep : Char) (l : List Char) : pySplit sep l ≠ [] := by
  induction l with
  | nil => simp [pySplit]
  | cons c rest ih =>
    cases h : pySplit sep rest with
    | nil => exact absurd h ih
    | cons cur out =>
      simp only [pySplit, h]
      split <;> simp

theorem pySplit_of_not_mem {sep : Char} {l : List Char} (h : sep ∉ l) :
    pySplit sep l = [l] := by
  induction l with
  | nil => rfl
  | cons c rest ih =>
    simp only [List.mem_cons, not_or] at h
    have hc : ¬ c = sep := fun hh => h.1 hh.symm
    simp [pySplit, ih h.2, hc]

theorem pySplit_append_sep {sep : Char} {p : List Char} (rest : List Char)
    (h : sep ∉ p) : pySplit sep (p ++ sep :: rest) = p :: pySplit sep rest := by
  induction p with
  | nil =>
    simp only [List.nil_append, pySplit]
    cases hr : pySplit sep rest with
    | nil => exact absurd hr (pySplit_ne_nil sep rest)
    | cons cur out => simp
  | cons c p ih =>
    simp only [List.mem_cons, not_or] at h
    have hc : ¬ c = sep := fun hh => h.1 hh.symm
    simp [pySplit, ih h.2, hc]

theorem two_le_length_pySplit_of_mem {sep : Char} {l : List Char} (h : sep ∈ l) :
    2 ≤ (pySplit sep l).length := by
  induction l with
  | nil => cases h
  | cons c rest ih =>
    cases hr : pySplit sep rest with
    | nil => exact absurd hr (pySplit_ne_nil sep rest)
    | cons cur out =>
      simp only [pySplit, hr]
      rcases List.mem_cons.mp h with hc | hm
      · rw [if_pos hc.symm]
        simp only [List.length_cons]
        omega
      · have h₂ := ih hm
        rw [hr] at h₂
        simp only [List.length_cons] at h₂
        split <;> simp only [List.length_cons] <;> omega

theorem invert_projected_key_of_ok {p n : Str} (hp : ':' ∉ p) (hn : ':' ∉ n) :
    invert_projected_key (project_key p n) = .ok (p, n) := by
  unfold invert_projected_key project_key
  rw [pySplit_append_sep n hp, pySplit_of_not_mem hn]

theorem invert_projected_key_error_of_length {k : Str}
    (h : (pySplit ':' k).length ≠ 2) :
    invert_projected_key k = .error .malformedKey := by
  unfold invert_projected_key
  rcases hs : pySplit ':' k with _ | ⟨a, _ | ⟨b, _ | ⟨c, t⟩⟩⟩ <;> simp_all

theorem invert_projected_key_error_shape {k : Str} {e : RegErr}
    (h : invert_projected_key k = .error e) : e = .malformedKey := by
  unfold invert_projected_key at h
  rcases hs : pySplit ':' k with _ | ⟨a, _ | ⟨b, _ | ⟨c, t⟩⟩⟩ <;> simp_all

theorem dictLookup_dictInsert_self {α : Type} (k : Str) (v : α)
    (d : List (Str × α)) : dictLookup k (dictInsert k v d) = some v := by
  induction d with
  | nil => simp [dictInsert, dictLookup]
  | cons kv rest ih =>
    by_cases h : kv.1 = k
    · simp [dictInsert, dictLookup, h]
    · simp [dictInsert, dictLookup, h, ih]

theorem list_entities_go_error {heap : List EntityObj} {project : Str}
    {d : List (Str × Nat)} {k : Str} {addr : Nat} (hmem : (k, addr) ∈ d)
    (hk : (pySplit ':' k).length ≠ 2) :
    list_entities_go heap project d = .error .malformedKey := by
  induction d with
  | nil => cases hmem
  | cons hd tl ih =>
    rcases List.mem_cons.mp hmem with hh | hm
    · subst hh
      simp [list_entities_go, invert_projected_key_error_of_length hk, Bind.bind, Except.bind]
    · cases hi : invert_projected_key hd.1 with
      | error e =>
        have := invert_projected_key_error_shape hi
        subst this
        simp [list_entities_go, hi, Bind.bind, Except.bind]
      | ok kp =>
        simp [list_entities_go, hi, Bind.bind, Except.bind, ih hm]

/-! ## Claim theorems -/

/-- C1: for a row-wise-independent transformation (`out = conv_rate + 1`) on
the same logical rows, row mode (`mode="python"`,
`_get_transformed_features_dict`) and tabular mode (`mode="pandas"`,
`_get_transformed_features_df`) do NOT produce identical output values: on an
input keyed by the fully-qualified upstream name, tabular mode returns
`out = 2` while row mode raises `KeyError`, because the per-feature readback
`row_output.get(feature, row_output[alias])` evaluates the alias subscription
eagerly and the alias name is absent from the udf's output. The claimed
equivalence fails on the code. -/
theorem transformed_modes_diverge :
    _get_transformed_features_dict [projSrc] [featOut] viewV plusOneRowUdf engineInput false
      = .error .keyError
    ∧ _get_transformed_features_df [projSrc] [featOut] viewV plusOneDfUdf engineInput false
      = [("out".toList, [some 2])] := by
  constructor
  · decide
  · decide

/-- C2: invoking the row-mode engine on the same view and batch with
`full_feature_names = true` succeeds with `v__out = 2`, while
`full_feature_names = false` raises `KeyError`: the two flag settings do not
yield identical output values for the declared output feature, refuting the
claimed flag-invariance (the eager alias subscription of line 406 fails
exactly when the requested convention matches what the udf produced). -/
theorem full_feature_names_changes_outcome :
    _get_transformed_features_dict [projSrc] [featOut] viewV plusOneRowUdf engineInput true
      = .ok [("v__out".toList, [some 2])]
    ∧ _get_transformed_features_dict [projSrc] [featOut] viewV plusOneRowUdf engineInput false
      = .error .keyError := by
  constructor
  · decide
  · decide

/-- C3: with a pass-through transformation, the column `conv_rate` — present
only because the naming-reconciliation step duplicated the fully-qualified
upstream column, and not part of the declared output schema (`out` only) —
survives into the returned frame: the cleanup of line 362 drops from the
input frame and discards the dropped frame, so duplication columns are never
removed from the result. -/
theorem cleanup_columns_survive :
    _get_transformed_features_df [projSrc] [featOut] viewV passThroughDfUdf engineInput false
      = [("src__conv_rate".toList, [some 1]), ("conv_rate".toList, [some 1]),
          ("out".toList, [some 2])]
    ∧ "conv_rate".toList ∉ [featOut].map FieldSpec.name := by
  constructor
  · decide
  · decide

/-- C5 counterexample: a successful `apply_feature_view` of a view whose
`last_updated_timestamp` is unset stores it with the timestamp still unset —
no apply of a feature view (nor of a data source, feature service or saved
dataset) reads a clock at all, so `last_updated_timestamp` is not refreshed
by every apply as claimed. -/
theorem apply_feature_view_no_refresh :
    (apply_feature_view fvNoStamp ("p".toList) emptyState).2 = .ok ()
    ∧ dictLookup (project_key ("p".toList) ("fv".toList))
        (apply_feature_view fvNoStamp ("p".toList) emptyState).1.featureViews
      = some fvNoStamp
    ∧ fvNoStamp.lastUpdated = none ∧ fvNoStamp.created = none := by decide

/-- C5 (amended): only entity applies manage timestamps — `apply_entity` sets
`created_timestamp` when absent (never overwriting a present one) and always
refreshes `last_updated_timestamp` on its argument, on the fresh-key apply
and on the duplicate-key apply alike; applies of data sources, feature
services, feature views and saved datasets store the object without touching
its timestamps; and `apply_materialization` refreshes the located view's
`last_updated_timestamp`. -/
theorem timestamps_only_on_entity_applies (s : RegistryState) (project : Str)
    (now addr a b : Nat) (e : EntityObj) (ds : DSObj) (fs : FSObj) (sd : SDObj)
    (fv : FVObj) :
    (s.entityHeap[addr]? = some e →
      dictLookup (project_key project e.name) s.entities = none →
      apply_entity addr project now s =
        ({ s with
            entityHeap := s.entityHeap.set addr
              { e with
                created := if e.created = none then some now else e.created
                lastUpdated := some now }
            entities := dictInsert (project_key project e.name) addr s.entities },
          .ok ()))
    ∧ (s.entityHeap[addr]? = some e →
        (dictLookup (project_key project e.name) s.entities).isSome = true →
        apply_entity addr project now s =
          ({ s with
              entityHeap := s.entityHeap.set addr
                { e with
                  created := if e.created = none then some now else e.created
                  lastUpdated := some now } },
            .error .duplicate))
    ∧ (dictLookup (project_key project ds.name) s.dataSources = none →
        apply_data_source ds project s =
          ({ s with dataSources := dictInsert (project_key project ds.name) ds s.dataSources },
            .ok ()))
    ∧ (dictLookup (project_key project fs.name) s.featureServices = none →
        apply_feature_service fs project s =
          ({ s with
              featureServices := dictInsert (project_key project fs.name) fs s.featureServices },
            .ok ()))
    ∧ (dictLookup (project_key project sd.name) s.savedDatasets = none →
        apply_saved_dataset sd project s =
          ({ s with savedDatasets := dictInsert (project_key project sd.name) sd s.savedDatasets },
            .ok ()))
    ∧ (dictLookup (project_key project fv.name) (fv_dict s fv.kind) = none →
        apply_feature_view fv project s =
          (set_fv_dict s fv.kind
              (dictInsert (project_key project fv.name) fv (fv_dict s fv.kind)),
            .ok ()))
    ∧ (∀ fv₂, dictLookup (project_key project fv.name) s.featureViews = some fv₂ →
        dictLookup (project_key project fv.name)
            (apply_materialization fv.name project a b now s).1.featureViews
          = some { fv₂ with intervals := fv₂.intervals ++ [(a, b)], lastUpdated := some now }) := by
  refine ⟨?_, ?_, ?_, ?_, ?_, ?_, ?_⟩
  · intro h₁ h₂
    simp [apply_entity, h₁, h₂]
  · intro h₁ h₂
    simp [apply_entity, h₁, h₂]
  · intro h₁
    simp [apply_data_source, h₁]
  · intro h₁
    simp [apply_feature_service, h₁]
  · intro h₁
    simp [apply_saved_dataset, h₁]
  · intro h₁
    simp [apply_feature_view, h₁]
  · intro fv₂ h₁
    simp [apply_materialization, h₁, dictLookup_dictInsert_self]

/-- Witness for `timestamps_only_on_entity_applies` on `sDup`: a fresh entity
apply into project `q`, a duplicate entity apply of the stored instance in
project `p` (which stamps but fails), fresh data-source, feature-service,
saved-dataset and feature-view applies into project `p`, and a
materialization append onto the stored view `f`. -/
theorem timestamps_only_on_entity_applies_witness :
    (apply_entity 1 ("q".toList) 7 sDup =
      ({ sDup with
          entityHeap := sDup.entityHeap.set 1
            { (⟨"e".toList, none, none⟩ : EntityObj) with
              created := if (none : Option Nat) = none then some 7 else none
              lastUpdated := some 7 }
          entities := dictInsert (project_key ("q".toList) ("e".toList)) 1 sDup.entities },
        .ok ()))
    ∧ (apply_entity 0 ("p".toList) 7 sDup =
        ({ sDup with
            entityHeap := sDup.entityHeap.set 0
              { (⟨"e".toList, some 1, some 1⟩ : EntityObj) with
                created := if (some 1 : Option Nat) = none then some 7 else some 1
                lastUpdated := some 7 } },
          .error .duplicate))
    ∧ (apply_data_source ⟨"d2".toList, none, none⟩ ("p".toList) sDup =
        ({ sDup with
            dataSources := dictInsert (project_key ("p".toList) ("d2".toList))
              ⟨"d2".toList, none, none⟩ sDup.dataSources },
          .ok ()))
    ∧ (apply_feature_service ⟨"s2".toList, none⟩ ("p".toList) sDup =
        ({ sDup with
            featureServices := dictInsert (project_key ("p".toList) ("s2".toList))
              ⟨"s2".toList, none⟩ sDup.featureServices },
          .ok ()))
    ∧ (apply_saved_dataset ⟨"sd2".toList⟩ ("p".toList) sDup =
        ({ sDup with
            savedDatasets := dictInsert (project_key ("p".toList) ("sd2".toList))
              ⟨"sd2".toList⟩ sDup.savedDatasets },
          .ok ()))
    ∧ (apply_feature_view ⟨"f2".toList, .batch, none, none, []⟩ ("p".toList) sDup =
        (set_fv_dict sDup .batch
            (dictInsert (project_key ("p".toList) ("f2".toList))
              ⟨"f2".toList, .batch, none, none, []⟩ (fv_dict sDup .batch)),
          .ok ()))
    ∧ (dictLookup (project_key ("p".toList) ("f".toList))
          (apply_materialization ("f".toList) ("p".toList) 2 3 7 sDup).1.featureViews
        = some { fvBatchF with intervals := fvBatchF.intervals ++ [(2, 3)], lastUpdated := some 7 }) := by
  have h := timestamps_only_on_entity_applies sDup ("q".toList) 7 1 2 3
    ⟨"e".toList, none, none⟩ ⟨"d2".toList, none, none⟩ ⟨"s2".toList, none⟩
    ⟨"sd2".toList⟩ ⟨"f2".toList, .batch, none, none, []⟩
  have h₂ := timestamps_only_on_entity_applies sDup ("p".toList) 7 1 2 3
    ⟨"e".toList, none, none⟩ ⟨"d2".toList, none, none⟩ ⟨"s2".toList, none⟩
    ⟨"sd2".toList⟩ ⟨"f2".toList, .batch, none, none, []⟩
  have h₃ := timestamps_only_on_entity_applies sDup ("p".toList) 7 0 2 3
    ⟨"e".toList, some 1, some 1⟩ ⟨"d2".toList, none, none⟩ ⟨"s2".toList, none⟩
    ⟨"sd2".toList⟩ ⟨"f".toList, .batch, none, none, []⟩
  exact ⟨h.1 (by decide) (by decide), h₃.2.1 (by decide) (by decide),
    h₂.2.2.1 (by decide), h₂.2.2.2.1 (by decide), h₂.2.2.2.2.1 (by decide),
    h₂.2.2.2.2.2.1 (by decide), h₃.2.2.2.2.2.2 fvBatchF (by decide)⟩

/-- C6 counterexample: re-applying the very entity instance the catalog
stores (`apply_entity` stamps its argument before the duplicate check, and the
catalog holds the object by reference) fails with the duplicate error yet
changes the stored entry: its `last_updated_timestamp` moves from the first
apply's clock to the failing apply's clock. -/
theorem duplicate_apply_mutates_stored_entity :
    (apply_entity 0 ("p".toList) 2 (apply_entity 0 ("p".toList) 1 sAlias).1).2
      = .error .duplicate
    ∧ dictLookup (project_key ("p".toList) ("e".toList))
        (apply_entity 0 ("p".toList) 1 sAlias).1.entities = some 0
    ∧ (apply_entity 0 ("p".toList) 1 sAlias).1.entityHeap[0]?
        = some ⟨"e".toList, some 1, some 1⟩
    ∧ (apply_entity 0 ("p".toList) 2 (apply_entity 0 ("p".toList) 1 sAlias).1).1.entityHeap[0]?
        = some ⟨"e".toList, some 1, some 2⟩ := by decide

/-- C6 (amended): for every object kind a second apply under an existing
`(project, name)` key fails with the duplicate `RegistryError` and never
modifies the sub-namespace mapping; for non-entity kinds the state is
entirely unchanged, and for entities every heap cell other than the applied
argument's own — in particular the stored entry, whenever the re-applied
object is not the stored instance itself — is unchanged (re-applying the
stored instance refreshes its `last_updated_timestamp` before failing, as the
apply stamps its argument ahead of the duplicate check). -/
theorem duplicate_apply_rejected (s : RegistryState) (project : Str)
    (now addr : Nat) (e : EntityObj) (ds : DSObj) (fs : FSObj) (sd : SDObj) (fv : FVObj) :
    (s.entityHeap[addr]? = some e →
      (dictLookup (project_key project e.name) s.entities).isSome = true →
      apply_entity addr project now s =
        ({ s with
            entityHeap := s.entityHeap.set addr
              { e with
                created := if e.created = none then some now else e.created
                lastUpdated := some now } },
          .error .duplicate))
    ∧ (∀ a₂, a₂ ≠ addr →
        (apply_entity addr project now s).1.entityHeap[a₂]? = s.entityHeap[a₂]?)
    ∧ ((dictLookup (project_key project ds.name) s.dataSources).isSome = true →
        apply_data_source ds project s = (s, .error .duplicate))
    ∧ ((dictLookup (project_key project fs.name) s.featureServices).isSome = true →
        apply_feature_service fs project s = (s, .error .duplicate))
    ∧ ((dictLookup (project_key project sd.name) s.savedDatasets).isSome = true →
        apply_saved_dataset sd project s = (s, .error .duplicate))
    ∧ ((dictLookup (project_key project fv.name) (fv_dict s fv.kind)).isSome = true →
        apply_feature_view fv project s = (s, .error .duplicate)) := by
  refine ⟨?_, ?_, ?_, ?_, ?_, ?_⟩
  · intro h₁ h₂
    simp [apply_entity, h₁, h₂]
  · intro a₂ hne
    unfold apply_entity
    cases hh : s.entityHeap[addr]? with
    | none => rfl
    | some e₂ =>
      simp only
      split <;> simp [List.getElem?_set_ne hne.symm]
  · intro h₁
    simp [apply_data_source, h₁]
  · intro h₁
    simp [apply_feature_service, h₁]
  · intro h₁
    simp [apply_saved_dataset, h₁]
  · intro h₁
    simp [apply_feature_view, h₁]

/-- Witness for `duplicate_apply_rejected` on `sDup`: re-applies of the
stored entity (address 0), data source `d`, feature service `s`, saved
dataset `sd` and batch view `f` under their existing keys in project `p`,
and heap preservation at the spare address 1. -/
theorem duplicate_apply_rejected_witness :
    (apply_entity 0 ("p".toList) 9 sDup =
      ({ sDup with
          entityHeap := sDup.entityHeap.set 0
            { (⟨"e".toList, some 1, some 1⟩ : EntityObj) with
              created := if (some 1 : Option Nat) = none then some 9 else some 1
              lastUpdated := some 9 } },
        .error .duplicate))
    ∧ (apply_entity 0 ("p".toList) 9 sDup).1.entityHeap[1]? = sDup.entityHeap[1]?
    ∧ (apply_data_source ⟨"d".toList, none, none⟩ ("p".toList) sDup = (sDup, .error .duplicate))
    ∧ (apply_feature_service ⟨"s".toList, none⟩ ("p".toList) sDup = (sDup, .error .duplicate))
    ∧ (apply_saved_dataset ⟨"sd".toList⟩ ("p".toList) sDup = (sDup, .error .duplicate))
    ∧ (apply_feature_view ⟨"f".toList, .batch, none, none, []⟩ ("p".toList) sDup
        = (sDup, .error .duplicate)) := by
  have h := duplicate_apply_rejected sDup ("p".toList) 9 0
    ⟨"e".toList, some 1, some 1⟩ ⟨"d".toList, none, none⟩ ⟨"s".toList, none⟩
    ⟨"sd".toList⟩ ⟨"f".toList, .batch, none, none, []⟩
  exact ⟨h.1 (by decide) (by decide), h.2.1 1 (by decide), h.2.2.1 (by decide),
    h.2.2.2.1 (by decide), h.2.2.2.2.1 (by decide), h.2.2.2.2.2 (by decide)⟩

/-- C7: `apply_materialization` resolves the name against the batch
sub-namespace first and the stream sub-namespace second; on a hit it appends
`(start, end)` at the end of that view's materialization log (touching no
other entry and leaving the other sub-namespace alone, so a batch hit wins
even if the name also exists as a stream view) and stamps
`last_updated_timestamp` with the clock; two successive appends with a
non-decreasing clock accumulate both intervals in order with the later stamp;
and a name absent from both sub-namespaces fails with the not-found error,
leaving the state unchanged. -/
theorem apply_materialization_spec (s : RegistryState) (name project : Str)
    (a b now : Nat) :
    (∀ fv, dictLookup (project_key project name) s.featureViews = some fv →
      apply_materialization name project a b now s =
        ({ s with
            featureViews := dictInsert (project_key project name)
              { fv with intervals := fv.intervals ++ [(a, b)], lastUpdated := some now }
              s.featureViews },
          .ok ()))
    ∧ (dictLookup (project_key project name) s.featureViews = none →
        ∀ fv, dictLookup (project_key project name) s.streamFeatureViews = some fv →
        apply_materialization name project a b now s =
          ({ s with
              streamFeatureViews := dictInsert (project_key project name)
                { fv with intervals := fv.intervals ++ [(a, b)], lastUpdated := some now }
                s.streamFeatureViews },
            .ok ()))
    ∧ (dictLookup (project_key project name) s.featureViews = none →
        dictLookup (project_key project name) s.streamFeatureViews = none →
        apply_materialization name project a b now s = (s, .error .notFound))
    ∧ (∀ fv now₂ a₂ b₂, dictLookup (project_key project name) s.featureViews = some fv →
        now ≤ now₂ →
        dictLookup (project_key project name)
            (apply_materialization name project a₂ b₂ now₂
              (apply_materialization name project a b now s).1).1.featureViews
          = some { fv with intervals := (fv.intervals ++ [(a, b)]) ++ [(a₂, b₂)], lastUpdated := some now₂ }) := by
  refine ⟨?_, ?_, ?_, ?_⟩
  · intro fv h₁
    simp [apply_materialization, h₁]
  · intro h₁ fv h₂
    simp [apply_materialization, h₁, h₂]
  · intro h₁ h₂
    simp [apply_materialization, h₁, h₂]
  · intro fv now₂ a₂ b₂ h₁ hle
    simp [apply_materialization, h₁, dictLookup_dictInsert_self]

/-- Witness for `apply_materialization_spec` on `sMat`: a batch hit on `f`, a
stream hit on `g`, a miss on `h`, and two successive appends onto `f` with
clock values 5 then 6. -/
theorem apply_materialization_spec_witness :
    (apply_materialization ("f".toList) ("p".toList) 2 3 5 sMat =
      ({ sMat with
          featureViews := dictInsert (project_key ("p".toList) ("f".toList))
            { fvBatchF with intervals := fvBatchF.intervals ++ [(2, 3)], lastUpdated := some 5 }
            sMat.featureViews },
        .ok ()))
    ∧ (apply_materialization ("g".toList) ("p".toList) 2 3 5 sMat =
        ({ sMat with
            streamFeatureViews := dictInsert (project_key ("p".toList) ("g".toList))
              { fvStreamG with intervals := fvStreamG.intervals ++ [(2, 3)], lastUpdated := some 5 }
              sMat.streamFeatureViews },
          .ok ()))
    ∧ (apply_materialization ("h".toList) ("p".toList) 2 3 5 sMat = (sMat, .error .notFound))
    ∧ (dictLookup (project_key ("p".toList) ("f".toList))
          (apply_materialization ("f".toList) ("p".toList) 4 5 6
            (apply_materialization ("f".toList) ("p".toList) 2 3 5 sMat).1).1.featureViews
        = some { fvBatchF with intervals := (fvBatchF.intervals ++ [(2, 3)]) ++ [(4, 5)], lastUpdated := some 6 }) := by
  have hf := apply_materialization_spec sMat ("f".toList) ("p".toList) 2 3 5
  have hg := apply_materialization_spec sMat ("g".toList) ("p".toList) 2 3 5
  have hh := apply_materialization_spec sMat ("h".toList) ("p".toList) 2 3 5
  exact ⟨hf.1 fvBatchF (by decide), hg.2.1 (by decide) fvStreamG (by decide),
    hh.2.2.1 (by decide) (by decide), hf.2.2.2 fvBatchF 6 4 5 (by decide) (by decide)⟩

/-- C8 counterexample: two definitions identical in name, declared outputs,
projection dict, request-source dict and compiled bytecode, differing only in
the formatting of the udf source text, compare UNEQUAL under `__eq__` —
line 174 compares `udf_string`, so textual source does break equality,
contrary to the claim. -/
theorem reformatted_udf_breaks_equality :
    odfvA.name = odfvB.name
    ∧ odfvA.features = odfvB.features
    ∧ odfvA.source_feature_view_projections = odfvB.source_feature_view_projections
    ∧ odfvA.source_request_sources = odfvB.source_request_sources
    ∧ odfvA.udf_co_code = odfvB.udf_co_code
    ∧ odfvA.udf_string ≠ odfvB.udf_string
    ∧ odfv_eq odfvA odfvB = false := by decide

/-- C8 (amended): `__eq__` holds iff the base fields (name and declared
outputs), the upstream projection dict, the request-source dict, the udf
SOURCE TEXT and the compiled bytecode are all equal — behavioural identity of
the body is necessary but not sufficient, since the textual source is
compared as well. -/
theorem odfv_eq_characterization (a b : ODFVDef) :
    odfv_eq a b = true ↔
      (a.name = b.name ∧ a.features = b.features
        ∧ a.source_feature_view_projections = b.source_feature_view_projections
        ∧ a.source_request_sources = b.source_request_sources
        ∧ a.udf_string = b.udf_string
        ∧ a.udf_co_code = b.udf_co_code) := by
  unfold odfv_eq base_feature_view_eq
  split_ifs with h₁ h₂
  · constructor
    · intro hff
      exact absurd hff (by simp)
    · intro hc
      rw [decide_eq_false_iff_not] at h₁
      exact absurd ⟨hc.1, hc.2.1⟩ h₁
  · constructor
    · intro hff
      exact absurd hff (by simp)
    · intro hc
      rcases h₂ with h | h | h | h
      · exact absurd hc.2.2.1 h
      · exact absurd hc.2.2.2.1 h
      · exact absurd hc.2.2.2.2.1 h
      · exact absurd hc.2.2.2.2.2 h
  · rw [decide_eq_false_iff_not, not_not] at h₁
    rw [not_or, not_or, not_or] at h₂
    simp only [ne_eq, not_not] at h₂
    exact ⟨fun _ => ⟨h₁.1, h₁.2, h₂.1, h₂.2.1, h₂.2.2.1, h₂.2.2.2⟩, fun _ => rfl⟩

/-- C9: every call of `MySQLRegistryStore.get_registry_proto` raises
`TypeError` regardless of the backing table: line 62 calls `_get_conn` with
an extra positional argument (and `_conn` is never initialised), and the
`except pymysql.err.DatabaseError` clause does not catch `TypeError`, so the
claimed fail-open degradation to an empty `RegistryProto` (and max-version
selection) is unreachable. -/
theorem get_registry_proto_raises (t : MySQLTableState) :
    get_registry_proto t = .error .typeError := rfl

/-- C10 counterexample: after applying an entity whose name contains `:`
(which `apply_entity` accepts), listing ENTITIES raises the `RegistryError`
for every project — but a list operation of a different kind
(`list_data_sources`) still returns its results, so it is not the case that
any subsequent list operation raises. -/
theorem colon_name_breaks_only_its_kind :
    (apply_entity 0 ("a".toList) 1 sColon).2 = .ok ()
    ∧ list_entities ("a".toList) sColonApplied = .error .malformedKey
    ∧ list_entities ("zz".toList) sColonApplied = .error .malformedKey
    ∧ list_data_sources ("a".toList) sColonApplied = .ok [] := by decide

/-- C10 (amended): for `:`-free project and name the projected key round-trips
through `invert_projected_key`; a stored key built from a `:`-free project and
a name containing `:` splits into more than two segments; and once any such
key is present in the entity sub-namespace, `list_entities` raises the
`RegistryError` for every project. -/
theorem project_key_roundtrip_and_colon_names (p n project k : Str)
    (s : RegistryState) (addr : Nat) :
    (':' ∉ p → ':' ∉ n → invert_projected_key (project_key p n) = .ok (p, n))
    ∧ (':' ∉ p → ':' ∈ n → 2 < (pySplit ':' (project_key p n)).length)
    ∧ ((k, addr) ∈ s.entities → (pySplit ':' k).length ≠ 2 →
        list_entities project s = .error .malformedKey) := by
  refine ⟨?_, ?_, ?_⟩
  · intro hp hn
    exact invert_projected_key_of_ok hp hn
  · intro hp hn
    unfold project_key
    rw [pySplit_append_sep n hp]
    have h₂ := two_le_length_pySplit_of_mem hn
    simp only [List.length_cons]
    omega
  · intro hmem hk
    exact list_entities_go_error hmem hk

/-- Witness for `project_key_roundtrip_and_colon_names`: round-trip of
`("a", "b")`, oversplitting of `("a", "b:c")`, and the failing entity list on
the catalog holding the applied `b:c` entity. -/
theorem project_key_roundtrip_witness :
    invert_projected_key (project_key ("a".toList) ("b".toList))
      = .ok ("a".toList, "b".toList)
    ∧ 2 < (pySplit ':' (project_key ("a".toList) ("b:c".toList))).length
    ∧ list_entities ("q".toList) sColonApplied = .error .malformedKey := by
  have h₁ := project_key_roundtrip_and_colon_names ("a".toList) ("b".toList)
    ("q".toList) ("a:b:c".toList) sColonApplied 0
  have h₂ := project_key_roundtrip_and_colon_names ("a".toList) ("b:c".toList)
    ("q".toList) ("a:b:c".toList) sColonApplied 0
  exact ⟨h₁.1 (by decide) (by decide), h₂.2.1 (by decide) (by decide),
    h₁.2.2 (by decide) (by decide)⟩

end Feast
